import Mathlib

/-!
Verification of the grandi NDI binding layer (src/lib/grandi_receive.cc and
src/lib/grandi_framesync.cc) against its natural-language specification.

The C++ sources are shallowly embedded: machine integers become `Int`/`Nat`
with explicit wrap-around where C casts can overflow, C truncating division
and remainder become `Int.tdiv`/`Int.tmod`, the blocking native SDK calls
become oracle inputs (a trace of native capture results), and the N-API
promise resolution becomes explicit outcome types.
-/

namespace Grandi

/-! ### C integer semantics helpers -/

/-- Wrap an integer to the range of a C `int32_t`, two's-complement style.
Models the effect of a C cast `(int32_t)x` on an out-of-range `int64_t`. -/
def toInt32 (v : Int) : Int := (v + 2 ^ 31) % 2 ^ 32 - 2 ^ 31

/-! ### Status codes

The `GRANDI_*` status codes live in `lib/grandi_util.h`, which is not part
of the provided sources; only their distinctness and identity matter here,
so they are modelled as an enumeration. -/

inductive GStatus where
  | invalidArgs
  | receiveCreateFail
  | notFound
  | connectionLost
  | notVideo
  | asyncFailure
  deriving DecidableEq, Repr

/-! ### Timestamp / timecode tick conversion

Native units are hundred-nanosecond ticks held in an `int64_t`.

From `videoReceiveComplete` (grandi_receive.cc):
  `ptps = (int32_t)(c->videoFrame.timestamp / 10000000);`
  `ptpn = (c->videoFrame.timestamp % 10000000) * 100;`
The division happens in 64-bit arithmetic and the quotient is then cast
to `int32_t`.

The timecode on the video paths (`videoReceiveComplete`,
`framesyncVideoComplete`, `framesyncAudioComplete`) is converted with
  `(int32_t)c->videoFrame.timecode / 10000000`
where the cast binds tighter than the division: the 64-bit tick value is
truncated to 32 bits first and only then divided.

The timecode on the receive-side audio and metadata paths
(`audioReceiveComplete`, `metadataReceiveComplete`) is converted with
  `(int32_t)(c->audioFrame.timecode / 10000000)`
i.e. divide first, cast after, like the timestamps. -/

/-- Seconds part of a timestamp: divide the 64-bit tick count (C division
truncates toward zero), then cast the quotient to `int32_t`. -/
def timestampSeconds (ticks : Int) : Int := toInt32 (ticks.tdiv 10000000)

/-- Nanoseconds part of a timestamp or timecode:
`(ticks % 10000000) * 100` with the C remainder (sign of the dividend).
The result always fits an `int32_t`, so no wrap is applied. -/
def ticksNanos (ticks : Int) : Int := ticks.tmod 10000000 * 100

/-- The `(seconds, nanoseconds)` pair emitted for `timestamp` fields. -/
def timestampPair (ticks : Int) : Int × Int :=
  (timestampSeconds ticks, ticksNanos ticks)

/-- Seconds part of the timecode as computed on the video paths:
`(int32_t)timecode / 10000000` casts the 64-bit tick count to `int32_t`
BEFORE dividing. -/
def videoTimecodeSeconds (ticks : Int) : Int := (toInt32 ticks).tdiv 10000000

/-- The `(seconds, nanoseconds)` pair emitted for the `timecode` field of
video frames (receive and framesync) and framesync audio frames. -/
def videoTimecodePair (ticks : Int) : Int × Int :=
  (videoTimecodeSeconds ticks, ticksNanos ticks)

/-- The `(seconds, nanoseconds)` pair emitted for the `timecode` field of
receive-side audio and metadata frames: divide first, cast after. -/
def recvTimecodePair (ticks : Int) : Int × Int :=
  (toInt32 (ticks.tdiv 10000000), ticksNanos ticks)

/-- Modelled from the spec: the conversion the specification prescribes,
`seconds = ticks / 10_000_000`, `nanoseconds = (ticks % 10_000_000) * 100`
with truncating integer division. Stated for comparison with the pairs the
code actually emits. -/
def specTickPair (ticks : Int) : Int × Int :=
  (ticks.tdiv 10000000, ticksNanos ticks)

/-! ### Native frame structs

Mirrors of the `NDIlib_video_frame_v2_t` / `NDIlib_audio_frame_v3_t` /
`NDIlib_metadata_frame_t` fields this layer reads.  Pointer payloads are
abstracted to a presence flag plus the byte count the binding computes from
them (`videoDataSize` lives in grandi_util.cc, outside the provided
sources, so the video byte count is carried as a field).  The
`picture_aspect_ratio` float field is copied verbatim by the binding and is
not modelled (floating point). -/

structure NativeVideoFrame where
  xres : Int
  yres : Int
  frameRateN : Int
  frameRateD : Int
  fourCC : Int
  frameFormatType : Int
  timecode : Int
  timestamp : Int
  lineStrideInBytes : Int
  /-- whether `p_data` is non-null -/
  hasData : Bool
  /-- the value of `videoDataSize(frame)` -/
  dataSize : Nat
  metadata : Option String
  deriving DecidableEq, Repr

structure NativeAudioFrame where
  sampleRate : Int
  /-- `no_channels`; a channel count, kept as `Nat` -/
  channels : Nat
  samples : Int
  /-- `channel_stride_in_bytes`; a byte count, kept as `Nat` -/
  channelStrideInBytes : Nat
  timecode : Int
  timestamp : Int
  /-- whether `p_data` is non-null -/
  hasData : Bool
  metadata : Option String
  deriving DecidableEq, Repr

structure NativeMetadataFrame where
  length : Int
  timecode : Int
  data : String
  deriving DecidableEq, Repr

/-- One result of `NDIlib_recv_capture_v3`: the returned
`NDIlib_frame_type_e` together with the frame payload it filled in. -/
inductive NativeResult where
  | none
  | video (f : NativeVideoFrame)
  | audio (f : NativeAudioFrame)
  | metadata (m : NativeMetadataFrame)
  | error
  | sourceChange
  | statusChange
  | max
  deriving DecidableEq, Repr

/-- Grandi_audio_format_e: per-call audio output format.
`float32Separate` is the native layout and has numeric value 0. -/
inductive AudioFormat where
  | float32Separate
  | float32Interleaved
  | int16Interleaved
  deriving DecidableEq, Repr

/-! ### Marshalled (host-visible) frames -/

structure VideoFrameJS where
  xres : Int
  yres : Int
  frameRateN : Int
  frameRateD : Int
  fourCC : Int
  frameFormatType : Int
  timestamp : Int × Int
  timecode : Int × Int
  lineStrideBytes : Int
  metadata : Option String
  /-- byte length of the copied `data` buffer -/
  dataLength : Nat
  deriving DecidableEq, Repr

structure AudioFrameJS where
  /-- numeric value of the emitted `audioFormat` property -/
  audioFormat : Nat
  referenceLevel : Option Int
  sampleRate : Int
  channels : Nat
  samples : Int
  channelStrideInBytes : Nat
  timestamp : Int × Int
  timecode : Int × Int
  metadata : Option String
  /-- byte length of the copied `data` buffer -/
  dataLength : Nat
  deriving DecidableEq, Repr

structure MetadataFrameJS where
  length : Int
  timestamp : Int × Int
  timecode : Int × Int
  data : String
  deriving DecidableEq, Repr

/-- Numeric value of a `Grandi_audio_format_e` constant. -/
def AudioFormat.toNat : AudioFormat → Nat
  | .float32Separate => 0
  | .float32Interleaved => 1
  | .int16Interleaved => 2

/-- Marshalling of a captured video frame, from `videoReceiveComplete`
(grandi_receive.cc).  The source builds the result object field by field
and finally checks the payload: if `p_data` is null or `videoDataSize`
is zero the promise is rejected with `GRANDI_NOT_VIDEO`; otherwise the
buffer is copied and the promise resolves with the full object. -/
def marshalVideo (f : NativeVideoFrame) : Except GStatus VideoFrameJS :=
  if f.hasData = false ∨ f.dataSize = 0 then .error .notVideo
  else .ok {
    xres := f.xres
    yres := f.yres
    frameRateN := f.frameRateN
    frameRateD := f.frameRateD
    fourCC := f.fourCC
    frameFormatType := f.frameFormatType
    timestamp := timestampPair f.timestamp
    timecode := videoTimecodePair f.timecode
    lineStrideBytes := f.lineStrideInBytes
    metadata := f.metadata
    dataLength := f.dataSize }

/-- Marshalling of a captured audio frame, from `audioReceiveComplete`
(grandi_receive.cc).  `factor` is 2 for interleaved 16-bit output and 1
otherwise; the emitted stride is `channel_stride_in_bytes / factor` and the
copied buffer length is `(channel_stride_in_bytes / factor) * no_channels`. -/
def marshalAudio (fmt : AudioFormat) (referenceLevel : Int)
    (f : NativeAudioFrame) : AudioFrameJS :=
  let factor : Nat := if fmt = .int16Interleaved then 2 else 1
  { audioFormat := fmt.toNat
    referenceLevel :=
      if fmt = .int16Interleaved then some referenceLevel else Option.none
    sampleRate := f.sampleRate
    channels := f.channels
    samples := f.samples
    channelStrideInBytes := f.channelStrideInBytes / factor
    timestamp := timestampPair f.timestamp
    timecode := recvTimecodePair f.timecode
    metadata := f.metadata
    dataLength := f.channelStrideInBytes / factor * f.channels }

/-- Marshalling of a captured metadata frame, from
`metadataReceiveComplete` (grandi_receive.cc).  Both the `timestamp` and
`timecode` properties are built from the same pair of values computed from
the frame's timecode field. -/
def marshalMetadata (m : NativeMetadataFrame) : MetadataFrameJS :=
  { length := m.length
    timestamp := recvTimecodePair m.timecode
    timecode := recvTimecodePair m.timecode
    data := m.data }

/-! ### The capture state machine (`captureUntilFrame`)

`captureUntilFrame` repeatedly calls `NDIlib_recv_capture_v3` until the
desired frame kind arrives, the time budget runs out, the native layer
reports no frame within a slice, or a transport error occurs.  The native
call is a blocking oracle; it is embedded as a trace of `CaptureStep`s,
one per loop iteration: the native result together with the value the
monotonic clock reads (milliseconds elapsed since loop entry) when the
call returns.  An exhausted trace leaves the loop still running
(`pending`). -/

/-- The kinds a format-specific capture call can ask for.  The call sites
(`videoReceiveExecute`, `audioReceiveExecute`, `metadataReceiveExecute`)
only ever pass `NDIlib_frame_type_video` / `_audio` / `_metadata`. -/
inductive CaptureKind where
  | video
  | audio
  | metadata
  deriving DecidableEq, Repr

/-- Whether a native capture result is of the requested kind
(`frameType == desired` in the loop). -/
def kindMatches : NativeResult → CaptureKind → Bool
  | .video _, .video => true
  | .audio _, .audio => true
  | .metadata _, .metadata => true
  | _, _ => false

/-- Whether `freeCapturedFrame` actually frees this result kind
(its `switch` frees video, audio and metadata frames and ignores the
rest). -/
def isCapturable : NativeResult → Bool
  | .video _ => true
  | .audio _ => true
  | .metadata _ => true
  | _ => false

/-- One loop iteration's oracle data: the native capture result and the
elapsed milliseconds since loop entry observed after that call returns. -/
structure CaptureStep where
  frame : NativeResult
  elapsed : Nat
  deriving DecidableEq, Repr

/-- From `remainingWaitMs` (grandi_receive.cc): remaining budget given the
initial wait and the elapsed milliseconds since the loop's start anchor.
A zero `initialWait` short-circuits to 0 before any clock reading. -/
def remainingWaitMs (initialWait : Nat) (elapsed : Nat) : Nat :=
  if initialWait = 0 then 0
  else if initialWait ≤ elapsed then 0
  else initialWait - elapsed

/-- How a `captureUntilFrame` run ended.  The C code signals both timeout
paths with the same caller-supplied `timeoutStatus`; the embedding keeps
the two code paths distinguishable: `noneTimeout` is the
`NDIlib_frame_type_none` branch, `budgetTimeout` the
`initialWait != 0 && waitMs == 0` branch.  `pending` means the oracle
trace ran out with the loop still going. -/
inductive CaptureOutcome where
  | matched (f : NativeResult)
  | noneTimeout
  | budgetTimeout
  | connectionLost
  | pending
  deriving DecidableEq, Repr

/-- Everything observable about one `captureUntilFrame` run: the final
outcome, the trace steps consumed, the unwanted frames passed to
`freeCapturedFrame` (in order), and the wait passed to each native
capture call (in order). -/
structure CaptureRun where
  outcome : CaptureOutcome
  consumed : List CaptureStep
  freed : List NativeResult
  waits : List Nat
  deriving DecidableEq, Repr

/-- The loop body of `captureUntilFrame` (grandi_receive.cc), with the
current wait slice `w` made explicit.  Each iteration: capture with `w`;
if the result matches the desired kind, return it; `none` sets the
timeout status; `error` sets `GRANDI_CONNECTION_LOST`; a different
capturable kind is freed; then the remaining budget is recomputed from
the monotonic clock and, when `initialWait != 0 && waitMs == 0`, the
timeout status is set, otherwise the loop repeats with the new slice. -/
def captureLoop (desired : CaptureKind) (initialWait : Nat) (w : Nat) :
    List CaptureStep → CaptureRun
  | [] => ⟨.pending, [], [], []⟩
  | s :: rest =>
    if kindMatches s.frame desired then ⟨.matched s.frame, [s], [], [w]⟩
    else if s.frame = .none then ⟨.noneTimeout, [s], [], [w]⟩
    else if s.frame = .error then ⟨.connectionLost, [s], [], [w]⟩
    else
      let freedHere := if isCapturable s.frame then [s.frame] else []
      let w' := remainingWaitMs initialWait s.elapsed
      if initialWait ≠ 0 ∧ w' = 0 then ⟨.budgetTimeout, [s], freedHere, [w]⟩
      else
        let r := captureLoop desired initialWait w' rest
        ⟨r.outcome, s :: r.consumed, freedHere ++ r.freed, w :: r.waits⟩

/-- `captureUntilFrame(c, desired, initialWait, ...)`: the loop entered
with `waitMs = initialWait`. -/
def captureUntilFrame (desired : CaptureKind) (initialWait : Nat)
    (steps : List CaptureStep) : CaptureRun :=
  captureLoop desired initialWait initialWait steps

/-! ### Format-specific receive calls -/

/-- Outcome of a format-specific receive promise. -/
inductive VideoOutcome where
  | resolved (v : VideoFrameJS)
  | rejected (s : GStatus)
  | pending
  deriving DecidableEq, Repr

/-- `receiver.video(timeoutMs)`: `videoReceiveExecute` runs
`captureUntilFrame` for video with timeout status `GRANDI_NOT_FOUND`;
`videoReceiveComplete` then either rejects with the recorded status or
marshals the captured frame. -/
def videoReceiveRun (wait : Nat) (steps : List CaptureStep) : VideoOutcome :=
  match (captureUntilFrame .video wait steps).outcome with
  | .matched (.video f) =>
    match marshalVideo f with
    | .ok v => .resolved v
    | .error s => .rejected s
  | .matched _ => .rejected .asyncFailure
  | .noneTimeout => .rejected .notFound
  | .budgetTimeout => .rejected .notFound
  | .connectionLost => .rejected .connectionLost
  | .pending => .pending

/-! ### The multiplexed `data` call

`dataReceiveExecute` performs a single `NDIlib_recv_capture_v3` call,
passing the caller's `wait` straight to the native layer (there is no
loop and no deadline arithmetic), converts audio in place when a format
override asks for it, and `dataReceiveComplete` dispatches on the one
returned frame type. -/

/-- Outcome of a `receiver.data` promise: a tagged variant per frame
kind, the non-throwing TimeoutEvent (`{type: "timeout"}`), the
source/status change events, or a rejection. -/
inductive DataOutcome where
  | video (v : VideoFrameJS)
  | audio (a : AudioFrameJS)
  | metadata (m : MetadataFrameJS)
  | sourceChange
  | statusChange
  | timeout
  | rejected (s : GStatus)
  deriving DecidableEq, Repr

/-- `receiver.data(options?, timeoutMs?)`.  `wait` is handed to the single
native capture call and plays no further part; the capture's result `cap`
is the oracle input.  From `dataReceiveExecute` / `dataReceiveComplete`
(grandi_receive.cc): video, audio and metadata results are marshalled by
the same completions the format-specific calls use; `source_change` and
`status_change` resolve as bare tagged objects; `none` resolves the
TimeoutEvent variant; `error` rejects with `GRANDI_CONNECTION_LOST`;
`NDIlib_frame_type_max` rejects with `GRANDI_ASYNC_FAILURE`. -/
def dataReceiveRun (fmt : AudioFormat) (referenceLevel : Int) (_wait : Nat)
    (cap : NativeResult) : DataOutcome :=
  match cap with
  | .video f =>
    match marshalVideo f with
    | .ok v => .video v
    | .error s => .rejected s
  | .audio f => .audio (marshalAudio fmt referenceLevel f)
  | .metadata m => .metadata (marshalMetadata m)
  | .sourceChange => .sourceChange
  | .statusChange => .statusChange
  | .none => .timeout
  | .error => .rejected .connectionLost
  | .max => .rejected .asyncFailure

/-! ### Frame synchronizer pulls (grandi_framesync.cc) -/

/-- The `noVideo` flag set by `framesyncVideoExecute`: true when the
non-blocking `NDIlib_framesync_capture_video` yielded no queued frame
(`p_data == nullptr || xres == 0 || yres == 0`). -/
def noVideo (f : NativeVideoFrame) : Bool :=
  !f.hasData || f.xres == 0 || f.yres == 0

/-- Outcome of a `frameSync.video()` promise. -/
inductive FsVideoOutcome where
  | timeout
  | video (v : VideoFrameJS)
  | rejected (s : GStatus)
  deriving DecidableEq, Repr

/-- `frameSync.video(fieldType?)`: `framesyncVideoExecute` performs one
non-blocking native pull (the requested field type only influences the
native call, hence the oracle frame `f`); `framesyncVideoComplete`
resolves `{type: "timeout"}` when `noVideo` was set and otherwise
marshals the frame exactly as the receive path does (including the
`videoDataSize` emptiness check). -/
def framesyncVideoRun (f : NativeVideoFrame) : FsVideoOutcome :=
  if noVideo f then .timeout
  else
    match marshalVideo f with
    | .ok v => .video v
    | .error s => .rejected s

/-- The frame object resolved by `frameSync.audio`. -/
structure FsAudioFrameJS where
  /-- numeric value of the emitted `audioFormat` property -/
  audioFormat : Nat
  sampleRate : Int
  channels : Nat
  samples : Int
  channelStrideInBytes : Nat
  timestamp : Int × Int
  timecode : Int × Int
  metadata : Option String
  /-- byte length of the copied `data` buffer -/
  dataLength : Nat
  deriving DecidableEq, Repr

/-- `frameSync.audio({sampleRate, noChannels, noSamples})`:
`framesyncAudioExecute` passes the three requested numbers to
`NDIlib_framesync_capture_audio_v2` (they shape the native resampling and
nothing else; the filled-in frame `f` is the oracle input), and
`framesyncAudioComplete` marshals the native frame verbatim: the
`audioFormat` property is the constant 0 (Float32Separate), the stride is
the unmodified native `channel_stride_in_bytes`, and no per-call format
conversion exists on this path.  The buffer length is
`channel_stride_in_bytes * no_channels` when the payload is present and
the stride and channel count are positive, and 0 otherwise.  The timecode
seconds use the same cast-before-divide expression as the video paths. -/
def framesyncAudioRun (_sampleRate _noChannels _noSamples : Int)
    (f : NativeAudioFrame) : FsAudioFrameJS :=
  { audioFormat := 0
    sampleRate := f.sampleRate
    channels := f.channels
    samples := f.samples
    channelStrideInBytes := f.channelStrideInBytes
    timestamp := timestampPair f.timestamp
    timecode := videoTimecodePair f.timecode
    metadata := f.metadata
    dataLength :=
      if f.hasData ∧ 0 < f.channels ∧ 0 < f.channelStrideInBytes then
        f.channelStrideInBytes * f.channels
      else 0 }

/-! ### Handle lifetime (destroy and finalize)

A receiver object's `embedded` property holds either the
`napi_external` wrapping the live native handle or the `int32` 0 written
by a successful destroy.  `destroyReceive` frees the native handle and
overwrites `embedded` with 0 exactly when the property is still an
external, returning `true`; otherwise it returns `false` and frees
nothing.  `finalizeReceive` (registered on the external at creation, with
the owning object as hint) frees the native handle exactly when the
object's `embedded` property is still an external; it runs when the
object is garbage-collected, after which no method can be invoked on the
object any more. -/

/-- The `embedded` property of a receiver object. -/
inductive EmbeddedSlot where
  | external
  | number
  deriving DecidableEq, Repr

/-- `destroyReceive` as a state transformer on the `embedded` slot:
`(returned value, new slot, native frees performed)`. -/
def destroyReceive : EmbeddedSlot → Bool × EmbeddedSlot × Nat
  | .external => (true, .number, 1)
  | .number => (false, .number, 0)

/-- Results and total native frees of `n` consecutive `destroy()` calls
on a receiver whose `embedded` slot starts in the given state. -/
def destroyReceiveCalls : Nat → EmbeddedSlot → List Bool × Nat
  | 0, _ => ([], 0)
  | n + 1, s =>
    let (b, s', k) := destroyReceive s
    let (bs, m) := destroyReceiveCalls n s'
    (b :: bs, k + m)

/-- The `embedded` property of a framesync object: an external carrying a
`framesyncWrapper` (whose `fs` pointer may have been nulled) or the
`int32` 0 written by destroy. -/
inductive FsSlot where
  | external (fs : Option Unit)
  | number
  deriving DecidableEq, Repr

/-- `destroyFrameSync` (grandi_framesync.cc): when `embedded` is still an
external, `NDIlib_framesync_destroy` runs iff the wrapper's `fs` pointer
is non-null, the wrapper is deleted, `embedded` becomes 0 and the call
returns `true`; otherwise it returns `false` and frees nothing. -/
def destroyFrameSync : FsSlot → Bool × FsSlot × Nat
  | .external (some _) => (true, .number, 1)
  | .external Option.none => (true, .number, 0)
  | .number => (false, .number, 0)

/-- Results and total native frees of `n` consecutive `destroy()` calls
on a framesync whose `embedded` slot starts in the given state. -/
def destroyFrameSyncCalls : Nat → FsSlot → List Bool × Nat
  | 0, _ => ([], 0)
  | n + 1, s =>
    let (b, s', k) := destroyFrameSync s
    let (bs, m) := destroyFrameSyncCalls n s'
    (b :: bs, k + m)

/-- Native frees performed by `finalizeReceive` when the wrapper object is
collected: one iff the object's `embedded` property is still an
external. -/
def finalizeReceiveFrees : EmbeddedSlot → Nat
  | .external => 1
  | .number => 0

/-- Native frees performed by `finalizeFrameSync`:
`NDIlib_framesync_destroy` runs iff the `embedded` external is still
present and its wrapper's `fs` pointer is non-null. -/
def finalizeFrameSyncFrees : FsSlot → Nat
  | .external (some _) => 1
  | _ => 0

/-- The two events that can release a receiver's native handle: an
explicit `destroy()` call, or garbage collection of the wrapper object
(which runs `finalizeReceive`). -/
inductive HandleOp where
  | destroyCall
  | collect
  deriving DecidableEq, Repr

/-- Lifecycle state of one receiver wrapper object: its `embedded` slot,
whether the object has been garbage-collected, and how many times the
native destroy has run. -/
structure HandleState where
  slot : EmbeddedSlot
  collected : Bool
  frees : Nat
  deriving DecidableEq, Repr

/-- One lifecycle event.  A collected object's methods can no longer be
invoked, so a `destroy()` on a collected object does not occur (modelled
as a no-op), and an object is collected at most once. -/
def handleStep (st : HandleState) : HandleOp → HandleState
  | .destroyCall =>
    if st.collected then st
    else
      let (_, s', k) := destroyReceive st.slot
      ⟨s', st.collected, st.frees + k⟩
  | .collect =>
    if st.collected then st
    else ⟨st.slot, true, st.frees + finalizeReceiveFrees st.slot⟩

/-- A freshly created receiver wrapper: live external, not collected. -/
def handleInit : HandleState := ⟨.external, false, 0⟩

/-- Run a sequence of lifecycle events on a fresh receiver wrapper. -/
def handleRun (ops : List HandleOp) : HandleState :=
  ops.foldl handleStep handleInit

/-- Lifecycle state of one framesync wrapper object. -/
structure FsHandleState where
  slot : FsSlot
  collected : Bool
  frees : Nat
  deriving DecidableEq, Repr

/-- One framesync lifecycle event, mirroring `handleStep` with
`destroyFrameSync` / `finalizeFrameSync`. -/
def fsHandleStep (st : FsHandleState) : HandleOp → FsHandleState
  | .destroyCall =>
    if st.collected then st
    else
      let (_, s', k) := destroyFrameSync st.slot
      ⟨s', st.collected, st.frees + k⟩
  | .collect =>
    if st.collected then st
    else ⟨st.slot, true, st.frees + finalizeFrameSyncFrees st.slot⟩

/-- A freshly created framesync wrapper: live external with a non-null
`fs` pointer, not collected. -/
def fsHandleInit : FsHandleState := ⟨.external (some ()), false, 0⟩

/-- Run a sequence of lifecycle events on a fresh framesync wrapper. -/
def fsHandleRun (ops : List HandleOp) : FsHandleState :=
  ops.foldl fsHandleStep fsHandleInit

/-- Modelled from the spec: the wait slices a deadline-respecting capture
loop is expected to use, given the initial wait, the first slice, and the
steps the loop consumed.  The first native capture gets the first slice
and each later capture gets the budget remaining after the previous step,
recomputed from the monotonic clock anchored at loop entry.  Stated for
comparison with the slices `captureLoop` actually passes. -/
def expectedWaits (initialWait w : Nat) : List CaptureStep → List Nat
  | [] => []
  | [_] => [w]
  | s :: rest =>
    w :: expectedWaits initialWait (remainingWaitMs initialWait s.elapsed)
      rest

/-- Alive marker of a receiver wrapper: 1 while the native handle can
still be freed by some event, 0 afterwards. -/
def aliveVal (st : HandleState) : Nat :=
  if st.slot = .external ∧ st.collected = false then 1 else 0

/-- Alive marker of a framesync wrapper. -/
def fsAliveVal (st : FsHandleState) : Nat :=
  if st.slot = .external (some ()) ∧ st.collected = false then 1 else 0

/-! ### Helper lemmas -/

/-- A `none` capture result never matches a requested capture kind. -/
theorem kindMatches_none (d : CaptureKind) :
    kindMatches NativeResult.none d = false := by
  cases d <;> rfl

/-- An `error` capture result never matches a requested capture kind. -/
theorem kindMatches_error (d : CaptureKind) :
    kindMatches NativeResult.error d = false := by
  cases d <;> rfl

/-- With a zero initial wait the remaining budget is always 0. -/
theorem remainingWaitMs_zero (e : Nat) : remainingWaitMs 0 e = 0 := rfl

/-- Repeated `destroy()` calls on a receiver whose `embedded` slot is
already a number all return `false` and never free. -/
theorem destroyReceiveCalls_number (n : Nat) :
    destroyReceiveCalls n .number = (List.replicate n false, 0) := by
  induction n with
  | zero => rfl
  | succ n ih =>
    simp [destroyReceiveCalls, destroyReceive, ih, List.replicate_succ]

/-- Repeated `destroy()` calls on a framesync whose `embedded` slot is
already a number all return `false` and never free. -/
theorem destroyFrameSyncCalls_number (n : Nat) :
    destroyFrameSyncCalls n .number = (List.replicate n false, 0) := by
  induction n with
  | zero => rfl
  | succ n ih =>
    simp [destroyFrameSyncCalls, destroyFrameSync, ih, List.replicate_succ]

/-- With a zero initial wait, the `captureUntilFrame` loop never takes the
budget-exhaustion branch, a timeout outcome arises exactly from a native
no-frame result, and every native capture is invoked with wait 0. -/
theorem captureLoop_zeroWait_spec :
    ∀ (steps : List CaptureStep) (desired : CaptureKind),
      (captureLoop desired 0 0 steps).outcome ≠ .budgetTimeout ∧
      ((captureLoop desired 0 0 steps).outcome = .noneTimeout ↔
        ∃ s ∈ (captureLoop desired 0 0 steps).consumed,
          s.frame = NativeResult.none) ∧
      ∀ w ∈ (captureLoop desired 0 0 steps).waits, w = 0 := by
  intro steps
  induction steps with
  | nil => intro desired; simp [captureLoop]
  | cons s rest ih =>
    intro desired
    by_cases hm : kindMatches s.frame desired = true
    · have hnone : ¬s.frame = NativeResult.none := by
        intro h; rw [h, kindMatches_none] at hm; exact Bool.false_ne_true hm
      simp [captureLoop, hm, hnone]
    · by_cases hn : s.frame = NativeResult.none
      · simp [captureLoop, hm, hn, kindMatches_none]
      · by_cases he : s.frame = NativeResult.error
        · simp [captureLoop, hm, hn, he, kindMatches_error]
        · have hrec := ih desired
          simp [captureLoop, hm, hn, he, remainingWaitMs, hrec.1,
            hrec.2.1, hn]
          exact hrec.2.2

/-- One lifecycle event preserves the receiver accounting invariant:
native frees performed so far plus the alive marker always equal 1. -/
theorem handleStep_inv (st : HandleState) (op : HandleOp)
    (h : st.frees + aliveVal st = 1) :
    (handleStep st op).frees + aliveVal (handleStep st op) = 1 := by
  obtain ⟨slot, collected, frees⟩ := st
  cases op <;> cases slot <;> cases collected <;>
    simp [handleStep, destroyReceive, finalizeReceiveFrees, aliveVal]
      at h ⊢ <;> omega

/-- One lifecycle event preserves the framesync accounting invariant. -/
theorem fsHandleStep_inv (st : FsHandleState) (op : HandleOp)
    (h : st.frees + fsAliveVal st = 1) :
    (fsHandleStep st op).frees + fsAliveVal (fsHandleStep st op) = 1 := by
  obtain ⟨slot, collected, frees⟩ := st
  cases op <;> rcases slot with ⟨_ | ⟨⟩⟩ | _ <;> cases collected <;>
    simp [fsHandleStep, destroyFrameSync, finalizeFrameSyncFrees,
      fsAliveVal] at h ⊢ <;> omega

/-- The receiver accounting invariant holds along any event sequence. -/
theorem handleFoldl_inv :
    ∀ (ops : List HandleOp) (st : HandleState),
      st.frees + aliveVal st = 1 →
      (ops.foldl handleStep st).frees +
        aliveVal (ops.foldl handleStep st) = 1 := by
  intro ops
  induction ops with
  | nil => intro st h; simpa using h
  | cons op rest ih =>
    intro st h
    simpa [List.foldl] using ih _ (handleStep_inv st op h)

/-- The framesync accounting invariant holds along any event sequence. -/
theorem fsHandleFoldl_inv :
    ∀ (ops : List HandleOp) (st : FsHandleState),
      st.frees + fsAliveVal st = 1 →
      (ops.foldl fsHandleStep st).frees +
        fsAliveVal (ops.foldl fsHandleStep st) = 1 := by
  intro ops
  induction ops with
  | nil => intro st h; simpa using h
  | cons op rest ih =>
    intro st h
    simpa [List.foldl] using ih _ (fsHandleStep_inv st op h)

/-- Once a receiver wrapper is dead, every further event keeps it dead. -/
theorem handleStep_dead (st : HandleState) (op : HandleOp)
    (h : aliveVal st = 0) : aliveVal (handleStep st op) = 0 := by
  obtain ⟨slot, collected, frees⟩ := st
  cases op <;> cases slot <;> cases collected <;>
    simp [handleStep, destroyReceive, finalizeReceiveFrees, aliveVal]
      at h ⊢

/-- Once a framesync wrapper is dead, every further event keeps it
dead. -/
theorem fsHandleStep_dead (st : FsHandleState) (op : HandleOp)
    (h : fsAliveVal st = 0) : fsAliveVal (fsHandleStep st op) = 0 := by
  obtain ⟨slot, collected, frees⟩ := st
  cases op <;> rcases slot with ⟨_ | ⟨⟩⟩ | _ <;> cases collected <;>
    simp [fsHandleStep, destroyFrameSync, finalizeFrameSyncFrees,
      fsAliveVal] at h ⊢

/-- Deadness persists along any event sequence (receiver). -/
theorem handleFoldl_dead :
    ∀ (ops : List HandleOp) (st : HandleState), aliveVal st = 0 →
      aliveVal (ops.foldl handleStep st) = 0 := by
  intro ops
  induction ops with
  | nil => intro st h; simpa using h
  | cons op rest ih =>
    intro st h
    simpa [List.foldl] using ih _ (handleStep_dead st op h)

/-- Deadness persists along any event sequence (framesync). -/
theorem fsHandleFoldl_dead :
    ∀ (ops : List HandleOp) (st : FsHandleState), fsAliveVal st = 0 →
      fsAliveVal (ops.foldl fsHandleStep st) = 0 := by
  intro ops
  induction ops with
  | nil => intro st h; simpa using h
  | cons op rest ih =>
    intro st h
    simpa [List.foldl] using ih _ (fsHandleStep_dead st op h)

/-- Full characterization of the loop's side effects: the frames passed
to `freeCapturedFrame` are exactly the capturable frames of a
non-matching kind among the consumed steps, in order, and the wait
passed to each native capture is the initial slice followed by the
remaining budget recomputed from the monotonic clock after each
non-terminal step. -/
theorem captureLoop_freed_waits :
    ∀ (steps : List CaptureStep) (desired : CaptureKind) (iw w : Nat),
      (captureLoop desired iw w steps).freed =
        ((captureLoop desired iw w steps).consumed.filter fun s =>
          isCapturable s.frame && !kindMatches s.frame desired).map
          (fun s => s.frame) ∧
      (captureLoop desired iw w steps).waits =
        expectedWaits iw w (captureLoop desired iw w steps).consumed := by
  intro steps
  induction steps with
  | nil => intro desired iw w; simp [captureLoop, expectedWaits]
  | cons s rest ih =>
    intro desired iw w
    by_cases hm : kindMatches s.frame desired = true
    · simp [captureLoop, hm, expectedWaits]
    · have hm' : kindMatches s.frame desired = false := by simpa using hm
      by_cases hn : s.frame = NativeResult.none
      · simp [captureLoop, hm, hn, expectedWaits, isCapturable,
          kindMatches_none]
      · by_cases he : s.frame = NativeResult.error
        · simp [captureLoop, hm, hn, he, expectedWaits, isCapturable,
            kindMatches_error]
        · by_cases hb : iw ≠ 0 ∧ remainingWaitMs iw s.elapsed = 0
          · by_cases hc : isCapturable s.frame = true <;>
              simp [captureLoop, hm, hm', hn, he, hb, hc, expectedWaits]
          · obtain ⟨hf, hw⟩ := ih desired iw (remainingWaitMs iw s.elapsed)
            have hstep : captureLoop desired iw w (s :: rest) =
                ⟨(captureLoop desired iw (remainingWaitMs iw s.elapsed)
                    rest).outcome,
                  s :: (captureLoop desired iw
                      (remainingWaitMs iw s.elapsed) rest).consumed,
                  (if isCapturable s.frame then [s.frame] else []) ++
                    (captureLoop desired iw (remainingWaitMs iw s.elapsed)
                      rest).freed,
                  w :: (captureLoop desired iw
                      (remainingWaitMs iw s.elapsed) rest).waits⟩ := by
              simp [captureLoop, hm, hn, he, hb]
            rw [hstep]
            constructor
            · by_cases hc : isCapturable s.frame = true <;>
                simp [List.filter_cons, hc, hm', hf]
            · rcases hcc : (captureLoop desired iw
                  (remainingWaitMs iw s.elapsed) rest).consumed with
                _ | ⟨c, cs⟩
              · rw [hw, hcc]
                simp [expectedWaits]
              · rw [hw, hcc]
                simp [expectedWaits]

/-! ### Claims -/

/-- C1: the spec requires every timestamp and timecode to convert as
`(ticks / 10_000_000, (ticks % 10_000_000) * 100)` with truncating 64-bit
division, exact for all in-range tick values; for T = 12_345_678_901 the
expected pair is (1234, 567890100).  The timestamp conversion and the
receive-side audio/metadata timecode conversion do exactly that, but the
video-path timecode conversion `(int32_t)timecode / 10000000` casts the
64-bit tick count to `int32_t` BEFORE dividing, so at T = 12_345_678_901
the emitted seconds value is -53 instead of 1234, and a received video
frame with that timecode carries the wrong pair. -/
theorem c1_video_timecode_cast_bug :
    videoTimecodePair 12345678901 = (-53, 567890100) ∧
    specTickPair 12345678901 = (1234, 567890100) ∧
    timestampPair 12345678901 = (1234, 567890100) ∧
    recvTimecodePair 12345678901 = (1234, 567890100) ∧
    (marshalVideo
        ⟨64, 36, 30, 1, 0, 1, 12345678901, 12345678901, 256, true, 9216,
          Option.none⟩).toOption.map (fun v => (v.timecode, v.timestamp)) =
      some ((-53, 567890100), (1234, 567890100)) := by
  refine ⟨by decide, by decide, by decide, by decide, ?_⟩
  simp only [marshalVideo]
  norm_num [timestampPair, videoTimecodePair, timestampSeconds,
    videoTimecodeSeconds, ticksNanos, toInt32, Except.toOption]
  decide

/-- C2 counterexample: with a zero timeout, a native "no frame in this
slice" result still makes `captureUntilFrame` take its timeout branch, so
`video(0)` rejects with the TimedOut status (`GRANDI_NOT_FOUND`) and
`data(0)` resolves with the TimeoutEvent variant — the call does not wait
indefinitely whenever the native capture reports no frame. -/
theorem c2_zero_timeout_counterexample :
    (captureUntilFrame .video 0 [⟨NativeResult.none, 0⟩]).outcome =
      .noneTimeout ∧
    videoReceiveRun 0 [⟨NativeResult.none, 0⟩] = .rejected .notFound ∧
    dataReceiveRun .float32Separate 0 0 NativeResult.none = .timeout := by
  refine ⟨by decide, ?_, rfl⟩
  rfl

/-- C2 (amended): a zero or unspecified timeout skips the
remaining-budget deadline arithmetic entirely — with `initialWait = 0`
the budget-exhaustion branch can never fire and every native capture is
invoked with wait 0 — but the call can still produce a TimedOut result:
a timeout outcome arises exactly when the native capture reports no
frame, and `data(0)` resolves with a TimeoutEvent in that case. -/
theorem c2_zero_timeout_amended :
    ∀ (desired : CaptureKind) (steps : List CaptureStep),
      (captureUntilFrame desired 0 steps).outcome ≠ .budgetTimeout ∧
      ((captureUntilFrame desired 0 steps).outcome = .noneTimeout ↔
        ∃ s ∈ (captureUntilFrame desired 0 steps).consumed,
          s.frame = NativeResult.none) ∧
      ∀ w ∈ (captureUntilFrame desired 0 steps).waits, w = 0 := by
  intro desired steps
  exact captureLoop_zeroWait_spec steps desired

/-- C2 witness: the amended statement applied to a concrete trace in
which a source-change notification precedes the native no-frame
result. -/
theorem c2_zero_timeout_witness :
    (captureUntilFrame .video 0 [⟨NativeResult.sourceChange, 5⟩,
        ⟨NativeResult.none, 9⟩]).outcome ≠ .budgetTimeout ∧
    (captureUntilFrame .video 0 [⟨NativeResult.sourceChange, 5⟩,
        ⟨NativeResult.none, 9⟩]).outcome = .noneTimeout := by
  refine ⟨(c2_zero_timeout_amended .video
    [⟨NativeResult.sourceChange, 5⟩, ⟨NativeResult.none, 9⟩]).1, ?_⟩
  exact (c2_zero_timeout_amended .video
    [⟨NativeResult.sourceChange, 5⟩, ⟨NativeResult.none, 9⟩]).2.1.mpr
    ⟨⟨NativeResult.none, 9⟩, by decide, rfl⟩

/-- C3: whenever the non-blocking framesync pull yields no queued frame
(null payload or zero resolution), `frameSync.video()` resolves with the
TimeoutEvent variant — it neither rejects nor blocks, even when no frame
has ever arrived. -/
theorem c3_framesync_video_timeout (f : NativeVideoFrame)
    (h : f.hasData = false ∨ f.xres = 0 ∨ f.yres = 0) :
    framesyncVideoRun f = .timeout := by
  have hv : noVideo f = true := by
    rcases h with h | h | h <;> simp [noVideo, h]
  simp [framesyncVideoRun, hv]

/-- C3 witness: a fresh framesync with no frame ever received returns a
zeroed frame with a null payload; the pull resolves the TimeoutEvent. -/
theorem c3_framesync_video_timeout_witness :
    ((⟨0, 0, 0, 0, 0, 1, 0, 0, 0, false, 0, Option.none⟩ :
        NativeVideoFrame).hasData = false ∨
      (⟨0, 0, 0, 0, 0, 1, 0, 0, 0, false, 0, Option.none⟩ :
        NativeVideoFrame).xres = 0 ∨
      (⟨0, 0, 0, 0, 0, 1, 0, 0, 0, false, 0, Option.none⟩ :
        NativeVideoFrame).yres = 0) ∧
    framesyncVideoRun
      ⟨0, 0, 0, 0, 0, 1, 0, 0, 0, false, 0, Option.none⟩ = .timeout :=
  ⟨Or.inl rfl,
    c3_framesync_video_timeout
      ⟨0, 0, 0, 0, 0, 1, 0, 0, 0, false, 0, Option.none⟩ (Or.inl rfl)⟩

/-- C5: handle destruction is idempotent.  Starting from a live handle,
a run of `n + 1` consecutive `destroy()` calls returns `true` on the
first call and `false` on every later one, and performs exactly one
native free in total — for receivers and for frame synchronizers. -/
theorem c5_destroy_idempotent (n : Nat) :
    destroyReceiveCalls (n + 1) .external =
      (true :: List.replicate n false, 1) ∧
    destroyFrameSyncCalls (n + 1) (.external (some ())) =
      (true :: List.replicate n false, 1) := by
  constructor
  · simp [destroyReceiveCalls, destroyReceive, destroyReceiveCalls_number]
  · simp [destroyFrameSyncCalls, destroyFrameSync,
      destroyFrameSyncCalls_number]

/-- C6: over every sequence of lifecycle events (explicit `destroy()`
calls and at most one garbage collection, which runs the finalizer and
after which no method can be invoked), the native destroy runs at most
once per handle — and, since whichever of the two paths runs first frees
the live handle, exactly once as soon as any event has occurred.  This
holds for receiver and framesync wrappers alike. -/
theorem c6_single_native_free (ops : List HandleOp) :
    (handleRun ops).frees ≤ 1 ∧ (fsHandleRun ops).frees ≤ 1 ∧
    (ops ≠ [] →
      (handleRun ops).frees = 1 ∧ (fsHandleRun ops).frees = 1) := by
  have hinv := handleFoldl_inv ops handleInit (by decide)
  have hfsinv := fsHandleFoldl_inv ops fsHandleInit (by decide)
  refine ⟨by unfold handleRun; omega, by unfold fsHandleRun; omega, ?_⟩
  intro hne
  obtain ⟨op, rest, rfl⟩ := List.exists_cons_of_ne_nil hne
  have hdead : aliveVal (handleRun (op :: rest)) = 0 := by
    unfold handleRun
    rw [List.foldl_cons]
    exact handleFoldl_dead rest _ (by cases op <;> decide)
  have hfsdead : fsAliveVal (fsHandleRun (op :: rest)) = 0 := by
    unfold fsHandleRun
    rw [List.foldl_cons]
    exact fsHandleFoldl_dead rest _ (by cases op <;> decide)
  simp only [handleRun, fsHandleRun] at hinv hfsinv hdead hfsdead ⊢
  omega

/-- C6 witness: a destroy followed by a later garbage collection (and
a hypothetical extra event) frees the native handles exactly once. -/
theorem c6_single_native_free_witness :
    (handleRun [.destroyCall, .collect, .destroyCall]).frees ≤ 1 ∧
    (fsHandleRun [.destroyCall, .collect, .destroyCall]).frees ≤ 1 ∧
    (handleRun [.destroyCall, .collect, .destroyCall]).frees = 1 ∧
    (fsHandleRun [.destroyCall, .collect, .destroyCall]).frees = 1 :=
  ⟨(c6_single_native_free [.destroyCall, .collect, .destroyCall]).1,
    (c6_single_native_free [.destroyCall, .collect, .destroyCall]).2.1,
    (c6_single_native_free [.destroyCall, .collect, .destroyCall]).2.2
      (by decide)⟩

/-- C9: every audio frame emitted by `receiver.audio` (and by
`receiver.data`, which marshals audio through the same completion) has
`dataLength = channelStrideInBytes * channels`, and when the
Int16Interleaved format is requested the emitted stride is exactly half
the native 32-bit-float channel stride (which is a whole number of
4-byte samples, hence even). -/
theorem c9_audio_stride_consistency (fmt : AudioFormat)
    (referenceLevel : Int) (f : NativeAudioFrame) :
    (marshalAudio fmt referenceLevel f).dataLength =
      (marshalAudio fmt referenceLevel f).channelStrideInBytes *
        (marshalAudio fmt referenceLevel f).channels ∧
    (2 ∣ f.channelStrideInBytes →
      (marshalAudio .int16Interleaved referenceLevel
          f).channelStrideInBytes * 2 = f.channelStrideInBytes) := by
  constructor
  · rfl
  · intro h2
    simp [marshalAudio]
    exact Nat.div_mul_cancel h2

/-- C9 witness: a two-channel float frame with a 1920-byte native stride,
converted to Int16Interleaved. -/
theorem c9_audio_stride_consistency_witness :
    (marshalAudio .int16Interleaved (-20)
        ⟨48000, 2, 480, 1920, 0, 0, true, Option.none⟩).dataLength =
      (marshalAudio .int16Interleaved (-20)
          ⟨48000, 2, 480, 1920, 0, 0, true,
            Option.none⟩).channelStrideInBytes *
        (marshalAudio .int16Interleaved (-20)
            ⟨48000, 2, 480, 1920, 0, 0, true, Option.none⟩).channels ∧
    (marshalAudio .int16Interleaved (-20)
        ⟨48000, 2, 480, 1920, 0, 0, true,
          Option.none⟩).channelStrideInBytes * 2 = 1920 :=
  ⟨(c9_audio_stride_consistency .int16Interleaved (-20)
      ⟨48000, 2, 480, 1920, 0, 0, true, Option.none⟩).1,
    (c9_audio_stride_consistency .int16Interleaved (-20)
        ⟨48000, 2, 480, 1920, 0, 0, true, Option.none⟩).2 (by decide)⟩

/-- C4 counterexample: a rejection of `receiver.data` that is not a
transport error — a native video frame with a null payload makes the call
reject with `GRANDI_NOT_VIDEO`, not with the ConnectionLost kind. -/
theorem c4_data_dispatch_counterexample :
    dataReceiveRun .float32Separate 0 1000
        (.video ⟨64, 36, 30, 1, 0, 1, 0, 0, 256, false, 0,
          Option.none⟩) = .rejected .notVideo ∧
    GStatus.notVideo ≠ GStatus.connectionLost := by
  refine ⟨by rfl, by decide⟩

/-- C4 (amended): `receiver.data` performs exactly one native capture (a
single native result determines the outcome; there is no loop past
non-matching kinds) and resolves with the tagged variant of whichever
kind arrived — video, audio, metadata, sourceChange or statusChange —
and a no-frame result resolves with the TimeoutEvent value rather than
rejecting.  A transport error rejects with the ConnectionLost kind;
additionally, a video frame with a null or empty payload rejects with
the NotVideo kind and an unrecognized native frame type rejects with an
async-failure kind — these are the only rejections. -/
theorem c4_data_dispatch_amended (fmt : AudioFormat)
    (referenceLevel : Int) (wait : Nat) (cap : NativeResult) :
    dataReceiveRun fmt referenceLevel wait NativeResult.none = .timeout ∧
    dataReceiveRun fmt referenceLevel wait .sourceChange =
      .sourceChange ∧
    dataReceiveRun fmt referenceLevel wait .statusChange =
      .statusChange ∧
    dataReceiveRun fmt referenceLevel wait .error =
      .rejected .connectionLost ∧
    (∀ f, dataReceiveRun fmt referenceLevel wait (.audio f) =
      .audio (marshalAudio fmt referenceLevel f)) ∧
    ((∃ s, dataReceiveRun fmt referenceLevel wait cap = .rejected s) ↔
      cap = .error ∨ cap = .max ∨
        ∃ f, cap = .video f ∧ (f.hasData = false ∨ f.dataSize = 0)) := by
  refine ⟨rfl, rfl, rfl, rfl, fun _ => rfl, ?_⟩
  cases cap with
  | video f =>
    by_cases h : f.hasData = false ∨ f.dataSize = 0 <;>
      simp [dataReceiveRun, marshalVideo, h]
  | _ => simp [dataReceiveRun]

/-- C7: in the format-specific capture loop, the frames handed to the
matching native free call are exactly the capturable frames of a
non-matching kind among the consumed native results, in order — they are
neither buffered nor surfaced as an error — and the wait passed to each
native capture is the remaining time budget recomputed via
`remainingWaitMs` from the monotonic clock anchored at loop entry
(`expectedWaits` chains exactly that recomputation step by step). -/
theorem c7_wrong_kind_freed (desired : CaptureKind) (initialWait : Nat)
    (steps : List CaptureStep) :
    (captureUntilFrame desired initialWait steps).freed =
      ((captureUntilFrame desired initialWait steps).consumed.filter
        fun s => isCapturable s.frame && !kindMatches s.frame
          desired).map (fun s => s.frame) ∧
    (captureUntilFrame desired initialWait steps).waits =
      expectedWaits initialWait initialWait
        (captureUntilFrame desired initialWait steps).consumed :=
  captureLoop_freed_waits steps desired initialWait initialWait

/-- C8: a transport error from the native capture makes the loop
transition to ConnectionLost immediately — whatever the initial wait,
the current slice and the elapsed time, and without consuming any
further native results (no retry) — and the format-specific call then
rejects with the distinct ConnectionLost error kind. -/
theorem c8_connection_lost (desired : CaptureKind)
    (initialWait w elapsed : Nat) (rest : List CaptureStep) :
    captureLoop desired initialWait w
        (⟨NativeResult.error, elapsed⟩ :: rest) =
      ⟨.connectionLost, [⟨NativeResult.error, elapsed⟩], [], [w]⟩ ∧
    videoReceiveRun initialWait (⟨NativeResult.error, elapsed⟩ :: rest) =
      .rejected .connectionLost := by
  have h1 : ∀ d iw w2, captureLoop d iw w2
      (⟨NativeResult.error, elapsed⟩ :: rest) =
      ⟨.connectionLost, [⟨NativeResult.error, elapsed⟩], [], [w2]⟩ := by
    intro d iw w2
    simp [captureLoop, kindMatches_error]
  exact ⟨h1 desired initialWait w,
    by simp [videoReceiveRun, captureUntilFrame, h1]⟩

/-- C10: every frame emitted by `frameSync.audio` carries
`audioFormat = 0` (Float32Separate) and the unmodified native channel
stride, whatever resampling options were passed: the per-call format
conversion and stride halving of `receiver.audio` do not exist on this
path, so the marshalled result does not depend on the options at all. -/
theorem c10_framesync_audio_native_format
    (sampleRate noChannels noSamples : Int) (f : NativeAudioFrame) :
    (framesyncAudioRun sampleRate noChannels noSamples f).audioFormat =
      0 ∧
    (framesyncAudioRun sampleRate noChannels noSamples
        f).channelStrideInBytes = f.channelStrideInBytes ∧
    ∀ sampleRate2 noChannels2 noSamples2 : Int,
      framesyncAudioRun sampleRate noChannels noSamples f =
        framesyncAudioRun sampleRate2 noChannels2 noSamples2 f :=
  ⟨rfl, rfl, fun _ _ _ => rfl⟩

end Grandi
